import Mathlib

/-
Verification of the AI gateway client of the Hair-V application.

The definitions below are a shallow embedding of src/services/geminiService.ts
(the later of the two revisions concatenated in that file, lines 153-300,
which the claim list cites) and of the application state handling in the App
component (src/unnamed/part_002, the final revision). JavaScript strings are
Lean strings, JavaScript truthiness of a string is the test against the empty
string, optional chaining is Option.bind, a thrown Error is the error side of
Except, and the remote generateContent call is a function parameter so that a
theorem can quantify over upstream behaviour. Each embedded function also
reports how many upstream calls it performed, which makes retry behaviour
expressible.
-/

set_option maxHeartbeats 1000000

namespace HairV

/-- Language, from types.ts as used by the source: two supported values. -/
inductive Language where
  | en
  | ar
deriving DecidableEq

/-- One entry of the distribution array of the analysis schema. -/
structure GraftZone where
  zone : String
  count : Int
deriving DecidableEq

/-- AnalysisResult, the structured assessment parsed from the analysis
response (fields as in the responseSchema of analyzeScalpImage). -/
structure AnalysisResult where
  norwoodScale : Int
  totalGrafts : Int
  distribution : List GraftZone
  estimatedCostMin : Int
  estimatedCostMax : Int
  summary : String
deriving DecidableEq

/-- An inlineData payload of a response part: both fields may be absent. -/
structure InlineData where
  mimeType : Option String
  data : Option String
deriving DecidableEq

/-- One content part of an upstream response. -/
structure Part where
  inlineData : Option InlineData
  text : Option String
deriving DecidableEq

/-- The content of a candidate; its parts array may be absent. -/
structure Content where
  parts : Option (List Part)
deriving DecidableEq

/-- One candidate of a generation response. -/
structure Candidate where
  content : Option Content
  finishReason : Option String
deriving DecidableEq

/-- The response shape generateRestorationPreview reads. -/
structure GenResponse where
  candidates : Option (List Candidate)
deriving DecidableEq

/-- The response shape analyzeScalpImage reads: only its text accessor. -/
structure AnalyzeResponse where
  text : Option String
deriving DecidableEq

deriving instance DecidableEq for Except

/-- A failure of the upstream generateContent call itself, before the service
code inspects any response. The service never inspects the kind: it is
classified here only so that theorems can speak about quota failures. -/
inductive UpstreamError where
  | quota
  | other (message : String)
deriving DecidableEq

/-- The failures the service code itself can produce, one constructor per
throw site of src/services/geminiService.ts, plus the propagated upstream
failure (the catch blocks log and rethrow). -/
inductive ServiceError where
  | apiKeyMissing
  | upstream (e : UpstreamError)
  | noData
  | parseFailure
  | generationStopped (reason : String)
  | noImageData
deriving DecidableEq

/-- The message text of each throw site, for the errors whose message the
service code builds itself. -/
def errorMessage : ServiceError → Option String
  | .apiKeyMissing => some "API Key is missing"
  | .upstream _ => none
  | .noData => some "No data returned from analysis."
  | .parseFailure => none
  | .generationStopped r =>
      some ("Generation stopped due to: " ++ r ++ ". Try a different photo.")
  | .noImageData => some "Model returned no image data."

/-- Whether a failure is the ParseError kind of the specification: the
structured analysis response was missing or malformed. -/
def parseErrorKind : ServiceError → Bool
  | .noData => true
  | .parseFailure => true
  | _ => false

/- ---------------------------------------------------------------------
The data-URI helpers of geminiService.ts, embedded at character level.
stripBase64Prefix applies the anchored pattern
  data:image\/(png|jpeg|jpg|webp);base64,
and getMimeType the anchored pattern
  data:(image\/[a-zA-Z]+);base64,
--------------------------------------------------------------------- -/

/-- The character class [a-zA-Z] of the mime pattern. -/
def isAsciiLetter (c : Char) : Bool :=
  ('a' ≤ c && c ≤ 'z') || ('A' ≤ c && c ≤ 'Z')

/-- The fixed text before the extension in both patterns. -/
def dataUriHead : List Char := "data:image/".toList

/-- The fixed text after the extension in both patterns. -/
def base64Marker : List Char := ";base64,".toList

/-- The full data-URI pattern text for one extension. -/
def dataUriPrefix (ext : List Char) : List Char :=
  dataUriHead ++ ext ++ base64Marker

/-- The four extensions of the stripBase64Prefix pattern, in the order of the
alternation. -/
def imageExts : List (List Char) :=
  ["png".toList, "jpeg".toList, "jpg".toList, "webp".toList]

/-- Embedding of stripBase64Prefix: remove the data-URL prefix when it
declares one of png, jpeg, jpg, webp, otherwise return the string
unchanged (an anchored replace with no match leaves its input alone). -/
def stripBase64Prefix (s : String) : String :=
  match imageExts.find? (fun ext => (dataUriPrefix ext).isPrefixOf s.toList) with
  | some ext => String.mk (s.toList.drop (dataUriPrefix ext).length)
  | none => s

/-- Embedding of getMimeType: return the declared image mime type when the
string starts with a data-URI prefix of the image/[a-zA-Z]+ shape, and
the default image/jpeg otherwise. The greedy letter run of the pattern is
the maximal run, and the marker must follow it directly. -/
def getMimeType (s : String) : String :=
  if dataUriHead.isPrefixOf s.toList then
    let tail := s.toList.drop dataUriHead.length
    let ext := tail.takeWhile isAsciiLetter
    if ext ≠ [] ∧ base64Marker.isPrefixOf (tail.drop ext.length) then
      String.mk ("image/".toList ++ ext)
    else "image/jpeg"
  else "image/jpeg"

/- ---------------------------------------------------------------------
The two gateway operations.
--------------------------------------------------------------------- -/

/-- The inline-data request analyzeScalpImage sends: cleaned base64 payload,
detected mime type, and the language the prompt asks the summary in. -/
structure AnalyzeRequest where
  mimeType : String
  data : String
  lang : Language
deriving DecidableEq

/-- The inline-data request generateRestorationPreview sends: cleaned base64
payload, detected mime type, and the style text injected into the prompt. -/
structure GenRequest where
  mimeType : String
  data : String
  stylePrompt : String
deriving DecidableEq

/-- The request analyzeScalpImage builds from its arguments before calling
upstream (lines 174-194 of the service file). -/
def analyzeRequestOf (base64Image : String) (lang : Language) : AnalyzeRequest :=
  { mimeType := getMimeType base64Image
    data := stripBase64Prefix base64Image
    lang := lang }

/-- The request generateRestorationPreview builds from its arguments before
calling upstream (lines 238-276 of the service file). -/
def genRequestOf (originalBase64 stylePrompt : String) : GenRequest :=
  { mimeType := getMimeType originalBase64
    data := stripBase64Prefix originalBase64
    stylePrompt := stylePrompt }

/-- Embedding of analyzeScalpImage. The upstream call is a parameter indexed
by the attempt number so that retry behaviour is expressible; JSON.parse is a
parameter returning none where the real call would throw a syntax error. The
second component of the result counts the upstream calls performed. Control
flow from the source: throw when the key is falsy; one generateContent call;
on a truthy response.text return the parsed JSON, otherwise throw; a caught
error is logged and rethrown unchanged. -/
def analyzeScalpImage (apiKey : String)
    (generateContent : Nat → AnalyzeRequest → Except UpstreamError AnalyzeResponse)
    (parseJson : String → Option AnalysisResult)
    (base64Image : String) (lang : Language) :
    Except ServiceError AnalysisResult × Nat :=
  if apiKey = "" then (.error .apiKeyMissing, 0)
  else
    match generateContent 0 (analyzeRequestOf base64Image lang) with
    | .error e => (.error (.upstream e), 1)
    | .ok response =>
      match response.text with
      | none => (.error .noData, 1)
      | some t =>
        if t = "" then (.error .noData, 1)
        else
          match parseJson t with
          | none => (.error .parseFailure, 1)
          | some r => (.ok r, 1)

/-- candidate?.content?.parts of the first candidate. -/
def candidateParts (c : Candidate) : Option (List Part) :=
  c.content.bind Content.parts

/-- response.candidates?.[0]. -/
def firstCandidate (r : GenResponse) : Option Candidate :=
  r.candidates.bind List.head?

/-- The test and the returned value of one iteration of the part loop: when
part.inlineData and part.inlineData.data are both truthy, the data URI built
from the declared mime type (or the image/png default when that is falsy)
and the base64 payload. -/
def partDataUri (p : Part) : Option String :=
  match p.inlineData with
  | none => none
  | some i =>
    match i.data with
    | none => none
    | some d =>
      if d = "" then none
      else
        match i.mimeType with
        | none => some ("data:" ++ "image/png" ++ ";base64," ++ d)
        | some m =>
          if m = "" then some ("data:" ++ "image/png" ++ ";base64," ++ d)
          else some ("data:" ++ m ++ ";base64," ++ d)

/-- The part scan of generateRestorationPreview: return the data URI of the
first part carrying truthy inline data, and throw the no-image error when the
parts array is absent or holds no such part. -/
def scanParts (c : Candidate) : Except ServiceError String :=
  match candidateParts c with
  | some ps =>
    match ps.findSome? partDataUri with
    | some uri => .ok uri
    | none => .error .noImageData
  | none => .error .noImageData

/-- Embedding of generateRestorationPreview. Control flow from the source:
throw when the key is falsy; one generateContent call; when the first
candidate has a truthy finishReason other than STOP, throw the
generation-stopped error with that reason in the message; otherwise scan
the parts for the first inline image and throw the no-image error when
none is found; a caught error is logged and rethrown unchanged. The second
component counts the upstream calls performed. -/
def generateRestorationPreview (apiKey : String)
    (generateContent : GenRequest → Except UpstreamError GenResponse)
    (originalBase64 stylePrompt : String) :
    Except ServiceError String × Nat :=
  if apiKey = "" then (.error .apiKeyMissing, 0)
  else
    match generateContent (genRequestOf originalBase64 stylePrompt) with
    | .error e => (.error (.upstream e), 1)
    | .ok response =>
      match firstCandidate response with
      | some c =>
        match c.finishReason with
        | none => (scanParts c, 1)
        | some fr =>
          if fr ≠ "" ∧ fr ≠ "STOP" then (.error (.generationStopped fr), 1)
          else (scanParts c, 1)
      | none => (.error .noImageData, 1)

/- ---------------------------------------------------------------------
The UI state handling of the App component (src/unnamed/part_002, the final
revision). Each async handler is embedded as the finite trace of appState
values it sets, given the state read when it starts and the outcome of the
awaited call; the step relation collects every consecutive pair of states
such a handler can produce.
--------------------------------------------------------------------- -/

/-- The AppState enumeration of types.ts, as used by the App component. -/
inductive AppState where
  | idle
  | analyzing
  | results
  | generatingPreview
  | previewReady
  | error
deriving DecidableEq, Fintype

/-- The appState values startAnalysis sets, in order: ANALYZING, then RESULTS
on success or ERROR on a caught failure. -/
def startAnalysisTrace (ok : Bool) : List AppState :=
  [.analyzing, if ok then .results else .error]

/-- The appState values handleGeneratePreview sets, in order, when invoked
with the machine in state s: nothing without an image; otherwise
GENERATING_PREVIEW, then PREVIEW_READY on success, and on a caught failure
PREVIEW_READY when the call was a regeneration (s was PREVIEW_READY when the
handler started) and RESULTS otherwise. -/
def handleGeneratePreviewTrace (s : AppState) (hasImage ok : Bool) :
    List AppState :=
  if hasImage = false then []
  else
    [.generatingPreview,
      if ok then .previewReady
      else if s = .previewReady then .previewReady else .results]

/-- The appState value handleReset sets. -/
def handleResetTrace : List AppState := [.idle]

/-- The consecutive state pairs of one handler invocation that started in
state s and set the states of the trace. -/
def traceSteps (s : AppState) (tr : List AppState) :
    List (AppState × AppState) :=
  (s :: tr).zip tr

/-- The UI transition relation: a pair of consecutive states produced by some
invocation of one of the three state-setting handlers. -/
def uiStep (p : AppState × AppState) : Prop :=
  ∃ s ok hasImage,
    p ∈ traceSteps s (startAnalysisTrace ok) ∨
    p ∈ traceSteps s (handleGeneratePreviewTrace s hasImage ok) ∨
    p ∈ traceSteps s handleResetTrace

instance (p : AppState × AppState) : Decidable (uiStep p) := by
  unfold uiStep
  infer_instance

/- ---------------------------------------------------------------------
Image preprocessing.
--------------------------------------------------------------------- -/

/-- The decoded form of an image: its pixel dimensions. -/
structure DecodedImage where
  width : Nat
  height : Nat
deriving DecidableEq

/-- Downscale to the width bound, preserving the aspect ratio; an image
already within the bound is left alone (no upscale). -/
def scaleToMaxWidth (maxWidth : Nat) (img : DecodedImage) : DecodedImage :=
  if img.width ≤ maxWidth then img
  else { width := maxWidth, height := img.height * maxWidth / img.width }

/-- Modelled from the spec: the Image Preprocessing component of section 4.1
is absent from the available source files (no resize or re-encode code exists
under src/), so its contract is embedded from the specification text: decode
the input bytes; on success re-encode the image downscaled to the fixed width
bound at the fixed JPEG quality (the decoder and the fixed-quality encoder
are parameters here); when decoding fails, fall back to returning the
original bytes unchanged instead of failing the caller. -/
def preprocessImage (decode : List Nat → Option DecodedImage)
    (encodeJpeg : DecodedImage → List Nat) (maxWidth : Nat)
    (input : List Nat) : List Nat :=
  match decode input with
  | none => input
  | some img => encodeJpeg (scaleToMaxWidth maxWidth img)

/- ---------------------------------------------------------------------
Auxiliary predicates and sample values used by the statements.
--------------------------------------------------------------------- -/

/-- The analysis response was missing or malformed: no text, empty text, or
text the JSON parser rejects. -/
def missingOrMalformed (parseJson : String → Option AnalysisResult)
    (resp : AnalyzeResponse) : Prop :=
  match resp.text with
  | none => True
  | some t => t = "" ∨ parseJson t = none

/-- A parsed assessment violating the cost invariant: its maximum estimated
cost is below its minimum. -/
def badAssessment : AnalysisResult :=
  { norwoodScale := 5
    totalGrafts := 3000
    distribution := []
    estimatedCostMin := 100
    estimatedCostMax := 50
    summary := "sample" }

/-- A part carrying only text, no inline data. -/
def textPart : Part := { inlineData := none, text := some "note" }

/-- A part carrying a png inline image payload. -/
def pngPart : Part :=
  { inlineData := some { mimeType := some "image/png", data := some "AAA" },
    text := none }

/-- A part carrying a jpeg inline image payload. -/
def jpegPart : Part :=
  { inlineData := some { mimeType := some "image/jpeg", data := some "BBB" },
    text := none }

/-- A candidate stopped by the content moderation of the provider. -/
def safetyCandidate : Candidate :=
  { content := none, finishReason := some "SAFETY" }

/-- A generation response stopped by content moderation. -/
def safetyResponse : GenResponse := { candidates := some [safetyCandidate] }

/-- A candidate stopped for an abnormal reason other than safety. -/
def maxTokensCandidate : Candidate :=
  { content := none, finishReason := some "MAX_TOKENS" }

/-- A generation response stopped for that other abnormal reason. -/
def maxTokensResponse : GenResponse :=
  { candidates := some [maxTokensCandidate] }

/-- A candidate that completed normally but returned only text. -/
def stopTextOnlyCandidate : Candidate :=
  { content := some { parts := some [textPart] }, finishReason := some "STOP" }

/-- A generation response that completed normally without any image part. -/
def stopTextOnlyResponse : GenResponse :=
  { candidates := some [stopTextOnlyCandidate] }

/-- A candidate that completed normally with a text part followed by two
inline image parts. -/
def multiPartCandidate : Candidate :=
  { content := some { parts := some [textPart, pngPart, jpegPart] },
    finishReason := some "STOP" }

/-- A generation response whose first inline image part is the png one. -/
def multiPartResponse : GenResponse :=
  { candidates := some [multiPartCandidate] }

/-- A candidate that completed normally and carries one inline image part. -/
def sampleImageCandidate : Candidate :=
  { content := some { parts := some [pngPart] }, finishReason := some "STOP" }

/-- A generation response that completed normally and carries one inline
image part. -/
def sampleImageResponse : GenResponse :=
  { candidates := some [sampleImageCandidate] }

/- ---------------------------------------------------------------------
Helper lemmas about the data-URI patterns.
--------------------------------------------------------------------- -/

theorem base64Marker_cons : base64Marker = ';' :: "base64,".toList := rfl

theorem isAsciiLetter_semi : isAsciiLetter ';' = false := by decide

/-- The greedy letter run of the mime pattern stops exactly at the semicolon
that opens the marker. -/
theorem takeWhile_letters (ext u : List Char)
    (h : ∀ c ∈ ext, isAsciiLetter c = true) :
    (ext ++ ';' :: u).takeWhile isAsciiLetter = ext := by
  induction ext with
  | nil =>
    rw [List.nil_append]
    show (match isAsciiLetter ';' with
      | true => ';' :: List.takeWhile isAsciiLetter u
      | false => []) = []
    rw [isAsciiLetter_semi]
  | cons a l ih =>
    have ha : isAsciiLetter a = true := h a (by simp)
    rw [List.cons_append]
    show (match isAsciiLetter a with
      | true => a :: List.takeWhile isAsciiLetter (l ++ ';' :: u)
      | false => []) = a :: l
    rw [ha, ih (fun c hc => h c (by simp [hc]))]

/-- Two letter runs each followed by a semicolon can only be prefixes of one
another when they are equal: the semicolon pins down where each run ends. -/
theorem letters_semi_prefix :
    ∀ (a b u v : List Char),
      (∀ c ∈ a, isAsciiLetter c = true) →
      (∀ c ∈ b, isAsciiLetter c = true) →
      (a ++ ';' :: u) <+: (b ++ ';' :: v) → a = b := by
  intro a
  induction a with
  | nil =>
    intro b u v _ hb hp
    cases b with
    | nil => rfl
    | cons x xs =>
      exfalso
      rw [List.nil_append, List.cons_append, List.cons_prefix_cons] at hp
      have hx : isAsciiLetter x = true := hb x (by simp)
      rw [← hp.1] at hx
      exact absurd hx (by decide)
  | cons x xs ih =>
    intro b u v ha hb hp
    cases b with
    | nil =>
      exfalso
      rw [List.cons_append, List.nil_append, List.cons_prefix_cons] at hp
      have hx : isAsciiLetter x = true := ha x (by simp)
      rw [hp.1] at hx
      exact absurd hx (by decide)
    | cons y ys =>
      rw [List.cons_append, List.cons_append, List.cons_prefix_cons] at hp
      obtain ⟨hxy, hrest⟩ := hp
      rw [hxy,
        ih ys u v (fun c hc => ha c (by simp [hc])) (fun c hc => hb c (by simp [hc])) hrest]

/-- A full data-URI pattern text for one letter run is a prefix of another
run's pattern text (with anything appended) exactly when the runs agree. -/
theorem dataUriPrefix_isPrefixOf_iff (a b rest : List Char)
    (ha : ∀ c ∈ a, isAsciiLetter c = true)
    (hb : ∀ c ∈ b, isAsciiLetter c = true) :
    (dataUriPrefix a).isPrefixOf (dataUriPrefix b ++ rest) = true ↔ a = b := by
  rw [List.isPrefixOf_iff_prefix]
  constructor
  · intro hp
    unfold dataUriPrefix at hp
    rw [List.append_assoc, List.append_assoc, List.append_assoc,
      List.prefix_append_right_inj, base64Marker_cons] at hp
    simp only [List.append_assoc, List.cons_append] at hp
    exact letters_semi_prefix a b _ _ ha hb hp
  · rintro rfl
    exact List.prefix_append _ _

theorem toList_mk (l : List Char) : (String.mk l).toList = l := rfl

/-- On an input starting with a well-formed data-URI prefix, getMimeType
returns exactly the declared mime type. -/
theorem getMimeType_declared (ext rest : List Char)
    (hne : ext ≠ []) (hae : ∀ c ∈ ext, isAsciiLetter c = true) :
    getMimeType (String.mk (dataUriPrefix ext ++ rest)) =
      String.mk ("image/".toList ++ ext) := by
  have hshape : dataUriPrefix ext ++ rest =
      dataUriHead ++ (ext ++ ';' :: ("base64,".toList ++ rest)) := by
    simp [dataUriPrefix, base64Marker_cons, List.append_assoc]
  have h1 : dataUriHead.isPrefixOf
      (String.mk (dataUriPrefix ext ++ rest)).toList = true := by
    rw [toList_mk, hshape, List.isPrefixOf_iff_prefix]
    exact List.prefix_append _ _
  have hdrop : (String.mk (dataUriPrefix ext ++ rest)).toList.drop
      dataUriHead.length = ext ++ ';' :: ("base64,".toList ++ rest) := by
    rw [toList_mk, hshape, List.drop_left]
  have hmk : base64Marker.isPrefixOf
      ((ext ++ ';' :: ("base64,".toList ++ rest)).drop
        (((ext ++ ';' :: ("base64,".toList ++ rest)).takeWhile
          isAsciiLetter)).length) = true := by
    rw [takeWhile_letters ext _ hae, List.drop_left, base64Marker_cons,
      List.isPrefixOf_iff_prefix, List.cons_prefix_cons]
    exact ⟨rfl, List.prefix_append _ _⟩
  simp only [getMimeType, hdrop]
  rw [if_pos h1, takeWhile_letters ext _ hae,
    if_pos ⟨hne, by rw [takeWhile_letters ext _ hae] at hmk; exact hmk⟩]

/-- getMimeType accepts every string: either the data-URI pattern matches
and the declared mime type comes back, or the default image/jpeg does. -/
theorem getMimeType_total (s : String) :
    getMimeType s = "image/jpeg" ∨
    ∃ ext rest, ext ≠ [] ∧ (∀ c ∈ ext, isAsciiLetter c = true) ∧
      s.toList = dataUriPrefix ext ++ rest ∧
      getMimeType s = String.mk ("image/".toList ++ ext) := by
  by_cases h1 : dataUriHead.isPrefixOf s.toList = true
  · obtain ⟨tail, htail⟩ := List.isPrefixOf_iff_prefix.mp h1
    have hd : s.toList.drop dataUriHead.length = tail := by
      rw [← htail, List.drop_left]
    by_cases h2 : tail.takeWhile isAsciiLetter ≠ [] ∧
        base64Marker.isPrefixOf
          (tail.drop (tail.takeWhile isAsciiLetter).length) = true
    · right
      obtain ⟨hne, hmk⟩ := h2
      obtain ⟨rest, hrest⟩ := List.isPrefixOf_iff_prefix.mp hmk
      have hsplit : tail.takeWhile isAsciiLetter ++
          tail.dropWhile isAsciiLetter = tail :=
        List.takeWhile_append_dropWhile _ _
      have hdw : tail.drop (tail.takeWhile isAsciiLetter).length =
          tail.dropWhile isAsciiLetter := by
        nth_rewrite 2 [← hsplit]
        rw [List.drop_left]
      rw [hdw] at hrest
      refine ⟨tail.takeWhile isAsciiLetter, rest, hne,
        fun c hc => List.mem_takeWhile_imp hc, ?_, ?_⟩
      · rw [← htail]
        conv_lhs => rw [← hsplit]
        rw [← hrest]
        simp [dataUriPrefix, List.append_assoc]
      · simp only [getMimeType, hd]
        rw [if_pos h1, if_pos ⟨hne, hmk⟩]
    · left
      simp only [getMimeType, hd]
      rw [if_pos h1, if_neg h2]
  · left
    simp only [getMimeType]
    rw [if_neg h1]

theorem dataUriPrefix_isPrefixOf_self (ext rest : List Char) :
    (dataUriPrefix ext).isPrefixOf (dataUriPrefix ext ++ rest) = true := by
  rw [List.isPrefixOf_iff_prefix]
  exact List.prefix_append _ _

theorem dataUriPrefix_isPrefixOf_false (a b rest : List Char)
    (ha : ∀ c ∈ a, isAsciiLetter c = true)
    (hb : ∀ c ∈ b, isAsciiLetter c = true) (hne : a ≠ b) :
    (dataUriPrefix a).isPrefixOf (dataUriPrefix b ++ rest) = false := by
  rw [Bool.eq_false_iff]
  intro h
  exact hne ((dataUriPrefix_isPrefixOf_iff a b rest ha hb).mp h)

/-- stripBase64Prefix removes a data-URI prefix declaring one of the four
extensions of the pattern. -/
theorem strip_matching (ext : List Char) (hm : ext ∈ imageExts)
    (rest : List Char) :
    stripBase64Prefix (String.mk (dataUriPrefix ext ++ rest)) =
      String.mk rest := by
  have hneg : ∀ a b : List Char, a ∈ imageExts → b ∈ imageExts → a ≠ b →
      ¬ ((dataUriPrefix a).isPrefixOf (dataUriPrefix b ++ rest) = true) := by
    intro a b ha hb hab
    have hla : ∀ c ∈ a, isAsciiLetter c = true := by fin_cases ha <;> decide
    have hlb : ∀ c ∈ b, isAsciiLetter c = true := by fin_cases hb <;> decide
    rw [dataUriPrefix_isPrefixOf_false a b rest hla hlb hab]
    decide
  simp only [stripBase64Prefix, toList_mk, imageExts]
  fin_cases hm
  · have hfind : List.find? (fun e => (dataUriPrefix e).isPrefixOf
        (dataUriPrefix "png".toList ++ rest))
        ["png".toList, "jpeg".toList, "jpg".toList, "webp".toList] =
        some "png".toList :=
      List.find?_cons_of_pos _ (dataUriPrefix_isPrefixOf_self _ rest)
    simp only [hfind]
    rw [List.drop_left]
  · have h1 : List.find? (fun e => (dataUriPrefix e).isPrefixOf
        (dataUriPrefix "jpeg".toList ++ rest))
        ["jpeg".toList, "jpg".toList, "webp".toList] = some "jpeg".toList :=
      List.find?_cons_of_pos _ (dataUriPrefix_isPrefixOf_self _ rest)
    have hfind : List.find? (fun e => (dataUriPrefix e).isPrefixOf
        (dataUriPrefix "jpeg".toList ++ rest))
        ["png".toList, "jpeg".toList, "jpg".toList, "webp".toList] =
        some "jpeg".toList := by
      have h0 : List.find? (fun e => (dataUriPrefix e).isPrefixOf
          (dataUriPrefix "jpeg".toList ++ rest))
          ["png".toList, "jpeg".toList, "jpg".toList, "webp".toList] =
          List.find? (fun e => (dataUriPrefix e).isPrefixOf
          (dataUriPrefix "jpeg".toList ++ rest))
          ["jpeg".toList, "jpg".toList, "webp".toList] :=
        List.find?_cons_of_neg _
          (hneg "png".toList "jpeg".toList (by decide) (by decide) (by decide))
      rw [h0]
      exact h1
    simp only [hfind]
    rw [List.drop_left]
  · have h1 : List.find? (fun e => (dataUriPrefix e).isPrefixOf
        (dataUriPrefix "jpg".toList ++ rest))
        ["jpg".toList, "webp".toList] = some "jpg".toList :=
      List.find?_cons_of_pos _ (dataUriPrefix_isPrefixOf_self _ rest)
    have hfind : List.find? (fun e => (dataUriPrefix e).isPrefixOf
        (dataUriPrefix "jpg".toList ++ rest))
        ["png".toList, "jpeg".toList, "jpg".toList, "webp".toList] =
        some "jpg".toList := by
      have h0 : List.find? (fun e => (dataUriPrefix e).isPrefixOf
          (dataUriPrefix "jpg".toList ++ rest))
          ["png".toList, "jpeg".toList, "jpg".toList, "webp".toList] =
          List.find? (fun e => (dataUriPrefix e).isPrefixOf
          (dataUriPrefix "jpg".toList ++ rest))
          ["jpeg".toList, "jpg".toList, "webp".toList] :=
        List.find?_cons_of_neg _
          (hneg "png".toList "jpg".toList (by decide) (by decide) (by decide))
      have h2 : List.find? (fun e => (dataUriPrefix e).isPrefixOf
          (dataUriPrefix "jpg".toList ++ rest))
          ["jpeg".toList, "jpg".toList, "webp".toList] =
          List.find? (fun e => (dataUriPrefix e).isPrefixOf
          (dataUriPrefix "jpg".toList ++ rest))
          ["jpg".toList, "webp".toList] :=
        List.find?_cons_of_neg _
          (hneg "jpeg".toList "jpg".toList (by decide) (by decide) (by decide))
      rw [h0, h2]
      exact h1
    simp only [hfind]
    rw [List.drop_left]
  · have h1 : List.find? (fun e => (dataUriPrefix e).isPrefixOf
        (dataUriPrefix "webp".toList ++ rest))
        ["webp".toList] = some "webp".toList :=
      List.find?_cons_of_pos _ (dataUriPrefix_isPrefixOf_self _ rest)
    have hfind : List.find? (fun e => (dataUriPrefix e).isPrefixOf
        (dataUriPrefix "webp".toList ++ rest))
        ["png".toList, "jpeg".toList, "jpg".toList, "webp".toList] =
        some "webp".toList := by
      have h0 : List.find? (fun e => (dataUriPrefix e).isPrefixOf
          (dataUriPrefix "webp".toList ++ rest))
          ["png".toList, "jpeg".toList, "jpg".toList, "webp".toList] =
          List.find? (fun e => (dataUriPrefix e).isPrefixOf
          (dataUriPrefix "webp".toList ++ rest))
          ["jpeg".toList, "jpg".toList, "webp".toList] :=
        List.find?_cons_of_neg _
          (hneg "png".toList "webp".toList (by decide) (by decide) (by decide))
      have h2 : List.find? (fun e => (dataUriPrefix e).isPrefixOf
          (dataUriPrefix "webp".toList ++ rest))
          ["jpeg".toList, "jpg".toList, "webp".toList] =
          List.find? (fun e => (dataUriPrefix e).isPrefixOf
          (dataUriPrefix "webp".toList ++ rest))
          ["jpg".toList, "webp".toList] :=
        List.find?_cons_of_neg _
          (hneg "jpeg".toList "webp".toList (by decide) (by decide) (by decide))
      have h3 : List.find? (fun e => (dataUriPrefix e).isPrefixOf
          (dataUriPrefix "webp".toList ++ rest))
          ["jpg".toList, "webp".toList] =
          List.find? (fun e => (dataUriPrefix e).isPrefixOf
          (dataUriPrefix "webp".toList ++ rest))
          ["webp".toList] :=
        List.find?_cons_of_neg _
          (hneg "jpg".toList "webp".toList (by decide) (by decide) (by decide))
      rw [h0, h2, h3]
      exact h1
    simp only [hfind]
    rw [List.drop_left]

/- ---------------------------------------------------------------------
Claim theorems.
--------------------------------------------------------------------- -/

/-- Claim C1, counterexample: with an upstream that fails with a quota error
on every attempt and a valid API key, both Analyze and Generate perform
exactly one upstream call and propagate the quota failure immediately —
not the four attempts (configured max 3 retries plus one) the claim
requires. -/
theorem quotaRetryClaim_counterexample :
    analyzeScalpImage "key" (fun _ _ => .error .quota) (fun _ => none)
        "img" .en = (.error (.upstream .quota), 1) ∧
    generateRestorationPreview "key" (fun _ => .error .quota) "img" "style" =
      (.error (.upstream .quota), 1) ∧
    (1 : Nat) ≠ 4 :=
  ⟨rfl, rfl, by decide⟩

/-- Claim C1, amended: neither Analyze nor Generate retries anything. With a
non-empty API key each operation performs exactly one upstream call, and any
upstream failure — the quota kind included — propagates immediately from that
single attempt; there is no backoff and no quota-specific handling. -/
theorem noRetryOnAnyFailure (apiKey : String)
    (gcA : Nat → AnalyzeRequest → Except UpstreamError AnalyzeResponse)
    (parseJson : String → Option AnalysisResult)
    (gcG : GenRequest → Except UpstreamError GenResponse)
    (base64Image stylePrompt : String) (lang : Language)
    (hk : apiKey ≠ "") :
    (analyzeScalpImage apiKey gcA parseJson base64Image lang).2 = 1 ∧
    (generateRestorationPreview apiKey gcG base64Image stylePrompt).2 = 1 ∧
    (∀ e, gcA 0 (analyzeRequestOf base64Image lang) = .error e →
      (analyzeScalpImage apiKey gcA parseJson base64Image lang).1 =
        .error (.upstream e)) ∧
    (∀ e, gcG (genRequestOf base64Image stylePrompt) = .error e →
      (generateRestorationPreview apiKey gcG base64Image stylePrompt).1 =
        .error (.upstream e)) := by
  refine ⟨?_, ?_, ?_, ?_⟩
  · unfold analyzeScalpImage
    rw [if_neg hk]
    repeat' split
    all_goals rfl
  · unfold generateRestorationPreview
    rw [if_neg hk]
    repeat' split
    all_goals rfl
  · intro e he
    unfold analyzeScalpImage
    rw [if_neg hk, he]
  · intro e he
    unfold generateRestorationPreview
    rw [if_neg hk, he]

/-- Claim C1, witness of the amended theorem at a concrete input. -/
theorem noRetryOnAnyFailure_witness :
    (analyzeScalpImage "key" (fun _ _ => .error .quota) (fun _ => none)
      "img" .en).2 = 1 ∧
    (generateRestorationPreview "key" (fun _ => .error .quota)
      "img" "style").2 = 1 :=
  ⟨(noRetryOnAnyFailure "key" (fun _ _ => .error .quota) (fun _ => none)
      (fun _ => .error .quota) "img" "style" .en (by decide)).1,
   (noRetryOnAnyFailure "key" (fun _ _ => .error .quota) (fun _ => none)
      (fun _ => .error .quota) "img" "style" .en (by decide)).2.1⟩

/-- Claim C3 (spec-modelled): when decoding fails, preprocessing returns the
original input bytes unchanged; no failure reaches the caller. -/
theorem preprocessDecodeFailureReturnsInput
    (decode : List Nat → Option DecodedImage)
    (encodeJpeg : DecodedImage → List Nat) (maxWidth : Nat)
    (input : List Nat) (h : decode input = none) :
    preprocessImage decode encodeJpeg maxWidth input = input := by
  unfold preprocessImage
  rw [h]

/-- Claim C3, witness: the fallback at a concrete failing decoder. -/
theorem preprocessDecodeFailureReturnsInput_witness :
    preprocessImage (fun _ => none) (fun _ => []) 1024 [7, 7, 7] = [7, 7, 7] :=
  preprocessDecodeFailureReturnsInput (fun _ => none) (fun _ => []) 1024
    [7, 7, 7] rfl

/-- Claim C7, counterexample: Analyze delivers a parsed result whose
estimatedCostMax is below its estimatedCostMin without any check — the
claimed invariant validation does not exist in the code. -/
theorem costInvariantChecked_counterexample :
    analyzeScalpImage "key" (fun _ _ => .ok { text := some "body" })
        (fun _ => some badAssessment) "img" .en = (.ok badAssessment, 1) ∧
    badAssessment.estimatedCostMax < badAssessment.estimatedCostMin :=
  ⟨rfl, by decide⟩

/-- Claim C7, amended: Analyze returns whatever AssessmentResult the JSON
parse produced, without validating the cost invariant (or anything else):
every parsed result, including one with estimatedCostMax below
estimatedCostMin, is delivered to the caller unchanged. -/
theorem analyzeDeliversParsedResultUnchecked (apiKey : String)
    (gcA : Nat → AnalyzeRequest → Except UpstreamError AnalyzeResponse)
    (parseJson : String → Option AnalysisResult)
    (base64Image : String) (lang : Language)
    (resp : AnalyzeResponse) (t : String) (r : AnalysisResult)
    (hk : apiKey ≠ "")
    (hu : gcA 0 (analyzeRequestOf base64Image lang) = .ok resp)
    (ht : resp.text = some t) (htne : t ≠ "") (hp : parseJson t = some r) :
    (analyzeScalpImage apiKey gcA parseJson base64Image lang).1 = .ok r := by
  unfold analyzeScalpImage
  rw [if_neg hk, hu]
  dsimp only
  rw [ht]
  dsimp only
  rw [if_neg htne, hp]

/-- Claim C7, witness: the amended theorem applied at the invariant-violating
result. -/
theorem analyzeDeliversParsedResultUnchecked_witness :
    (analyzeScalpImage "key" (fun _ _ => .ok { text := some "body" })
      (fun _ => some badAssessment) "img" .en).1 = .ok badAssessment :=
  analyzeDeliversParsedResultUnchecked "key"
    (fun _ _ => .ok { text := some "body" }) (fun _ => some badAssessment)
    "img" .en { text := some "body" } "body" badAssessment
    (by decide) rfl rfl (by decide) rfl

/-- Claim C9, counterexample: with an empty image payload and an API key
present, both operations issue the upstream request — with empty inline
data — instead of failing, and can even succeed. -/
theorem emptyImageEnforcement_counterexample :
    (analyzeRequestOf "" .en).data = "" ∧
    analyzeScalpImage "key" (fun _ _ => .ok { text := some "body" })
        (fun _ => some badAssessment) "" .en = (.ok badAssessment, 1) ∧
    (genRequestOf "" "style").data = "" ∧
    generateRestorationPreview "key" (fun _ => .ok sampleImageResponse)
        "" "style" = (.ok "data:image/png;base64,AAA", 1) :=
  ⟨rfl, rfl, rfl, by decide⟩

/-- Claim C9, amended: no non-emptiness constraint on the image exists. For
an empty image payload and a non-empty API key, both operations build the
request with empty inline data (and the default image/jpeg mime type) and
issue exactly one upstream call with it, rather than failing first. -/
theorem emptyImageRequestStillIssued (apiKey stylePrompt : String)
    (lang : Language)
    (gcA : Nat → AnalyzeRequest → Except UpstreamError AnalyzeResponse)
    (parseJson : String → Option AnalysisResult)
    (gcG : GenRequest → Except UpstreamError GenResponse)
    (hk : apiKey ≠ "") :
    analyzeRequestOf "" lang =
      { mimeType := "image/jpeg", data := "", lang := lang } ∧
    genRequestOf "" stylePrompt =
      { mimeType := "image/jpeg", data := "", stylePrompt := stylePrompt } ∧
    (analyzeScalpImage apiKey gcA parseJson "" lang).2 = 1 ∧
    (generateRestorationPreview apiKey gcG "" stylePrompt).2 = 1 := by
  refine ⟨rfl, rfl, ?_, ?_⟩
  · unfold analyzeScalpImage
    rw [if_neg hk]
    repeat' split
    all_goals rfl
  · unfold generateRestorationPreview
    rw [if_neg hk]
    repeat' split
    all_goals rfl

/-- Claim C9, witness of the amended theorem at a concrete input. -/
theorem emptyImageRequestStillIssued_witness :
    analyzeRequestOf "" .en =
      { mimeType := "image/jpeg", data := "", lang := .en } ∧
    genRequestOf "" "style" =
      { mimeType := "image/jpeg", data := "", stylePrompt := "style" } :=
  ⟨(emptyImageRequestStillIssued "key" "style" .en
      (fun _ _ => .error .quota) (fun _ => none) (fun _ => .error .quota)
      (by decide)).1,
   (emptyImageRequestStillIssued "key" "style" .en
      (fun _ _ => .error .quota) (fun _ => none) (fun _ => .error .quota)
      (by decide)).2.1⟩

/-- Claim C2, counterexample: a SAFETY finish reason produces the same
generationStopped failure kind — the one generic throw site for every
non-STOP finish reason — as any other abnormal reason; no distinct
SafetyBlock kind exists in the code. -/
theorem safetyBlockDistinctKind_counterexample :
    generateRestorationPreview "key" (fun _ => .ok safetyResponse)
        "img" "style" = (.error (.generationStopped "SAFETY"), 1) ∧
    generateRestorationPreview "key" (fun _ => .ok maxTokensResponse)
        "img" "style" = (.error (.generationStopped "MAX_TOKENS"), 1) :=
  ⟨rfl, rfl⟩

/-- Claim C2, amended: a Generate response whose first candidate has finish
reason SAFETY fails without returning an image, but through the single
generic generationStopped(reason) kind shared with every other non-STOP
finish reason (message: Generation stopped due to SAFETY, try a different
photo), not through a distinct SafetyBlock kind. -/
theorem safetyFinishSharesGenerationStoppedKind (apiKey : String)
    (gcG : GenRequest → Except UpstreamError GenResponse)
    (originalBase64 stylePrompt : String)
    (resp : GenResponse) (c : Candidate)
    (hk : apiKey ≠ "")
    (hu : gcG (genRequestOf originalBase64 stylePrompt) = .ok resp)
    (hc : firstCandidate resp = some c)
    (hf : c.finishReason = some "SAFETY") :
    generateRestorationPreview apiKey gcG originalBase64 stylePrompt =
      (.error (.generationStopped "SAFETY"), 1) ∧
    errorMessage (.generationStopped "SAFETY") =
      some "Generation stopped due to: SAFETY. Try a different photo." := by
  refine ⟨?_, rfl⟩
  unfold generateRestorationPreview
  rw [if_neg hk, hu]
  dsimp only
  rw [hc]
  dsimp only
  rw [hf]
  dsimp only
  rw [if_pos (by decide : ("SAFETY" : String) ≠ "" ∧ ("SAFETY" : String) ≠ "STOP")]

/-- Claim C2, witness of the amended theorem at a concrete response. -/
theorem safetyFinishSharesGenerationStoppedKind_witness :
    generateRestorationPreview "key" (fun _ => .ok safetyResponse)
      "img" "style" = (.error (.generationStopped "SAFETY"), 1) :=
  (safetyFinishSharesGenerationStoppedKind "key"
    (fun _ => .ok safetyResponse) "img" "style"
    safetyResponse safetyCandidate (by decide) rfl rfl rfl).1

/-- Claim C5: a Generate response whose first candidate finished with STOP
but whose content holds no part with truthy inline image data fails with the
no-image failure. -/
theorem generateStopNoImageFails (apiKey : String)
    (gcG : GenRequest → Except UpstreamError GenResponse)
    (originalBase64 stylePrompt : String)
    (resp : GenResponse) (c : Candidate)
    (hk : apiKey ≠ "")
    (hu : gcG (genRequestOf originalBase64 stylePrompt) = .ok resp)
    (hc : firstCandidate resp = some c)
    (hf : c.finishReason = some "STOP")
    (hno : ∀ ps, candidateParts c = some ps → ∀ p ∈ ps, partDataUri p = none) :
    generateRestorationPreview apiKey gcG originalBase64 stylePrompt =
      (.error .noImageData, 1) := by
  unfold generateRestorationPreview
  rw [if_neg hk, hu]
  dsimp only
  rw [hc]
  dsimp only
  rw [hf]
  dsimp only
  rw [if_neg (by decide : ¬ (("STOP" : String) ≠ "" ∧ ("STOP" : String) ≠ "STOP"))]
  unfold scanParts
  cases hps : candidateParts c with
  | none => rfl
  | some ps =>
    dsimp only
    rw [List.findSome?_eq_none_iff.mpr (hno ps hps)]

/-- Claim C5, witness at a concrete response holding only a text part. -/
theorem generateStopNoImageFails_witness :
    generateRestorationPreview "key" (fun _ => .ok stopTextOnlyResponse)
      "img" "style" = (.error .noImageData, 1) :=
  generateStopNoImageFails "key" (fun _ => .ok stopTextOnlyResponse)
    "img" "style" stopTextOnlyResponse stopTextOnlyCandidate
    (by decide) rfl rfl rfl
    (by
      intro ps hps
      obtain rfl : [textPart] = ps := Option.some.inj hps
      decide)


/-- Claim C6: on success Generate returns the data URI joining the declared
mime type and base64 payload of the first part, in response order, that
carries truthy inline image data. -/
theorem generateFirstInlineImageDataUri (apiKey : String)
    (gcG : GenRequest → Except UpstreamError GenResponse)
    (originalBase64 stylePrompt : String)
    (resp : GenResponse) (c : Candidate) (pre post : List Part) (p : Part)
    (i : InlineData) (m d : String)
    (hk : apiKey ≠ "")
    (hu : gcG (genRequestOf originalBase64 stylePrompt) = .ok resp)
    (hc : firstCandidate resp = some c)
    (hf : c.finishReason = none ∨ c.finishReason = some "" ∨
      c.finishReason = some "STOP")
    (hp : candidateParts c = some (pre ++ p :: post))
    (hpre : ∀ q ∈ pre, partDataUri q = none)
    (hi : p.inlineData = some i) (hd : i.data = some d) (hdne : d ≠ "")
    (hm : i.mimeType = some m) (hmne : m ≠ "") :
    generateRestorationPreview apiKey gcG originalBase64 stylePrompt =
      (.ok ("data:" ++ m ++ ";base64," ++ d), 1) := by
  have hpd : partDataUri p = some ("data:" ++ m ++ ";base64," ++ d) := by
    unfold partDataUri
    rw [hi]
    dsimp only
    rw [hd]
    dsimp only
    rw [if_neg hdne, hm]
    dsimp only
    rw [if_neg hmne]
  have hscan : scanParts c = .ok ("data:" ++ m ++ ";base64," ++ d) := by
    unfold scanParts
    rw [hp]
    dsimp only
    rw [List.findSome?_append, List.findSome?_eq_none_iff.mpr hpre,
      Option.none_or, List.findSome?_cons, hpd]
  unfold generateRestorationPreview
  rw [if_neg hk, hu]
  dsimp only
  rw [hc]
  dsimp only
  rcases hf with hf | hf | hf
  · rw [hf]
    dsimp only
    rw [hscan]
  · rw [hf]
    dsimp only
    rw [if_neg (by decide : ¬ (("" : String) ≠ "" ∧ ("" : String) ≠ "STOP")),
      hscan]
  · rw [hf]
    dsimp only
    rw [if_neg (by decide : ¬ (("STOP" : String) ≠ "" ∧ ("STOP" : String) ≠ "STOP")),
      hscan]

/-- Claim C6, witness: the image part after a leading text part is the one
returned, ahead of a second, later image part. -/
theorem generateFirstInlineImageDataUri_witness :
    generateRestorationPreview "key" (fun _ => .ok multiPartResponse)
      "img" "style" =
      (.ok ("data:" ++ "image/png" ++ ";base64," ++ "AAA"), 1) :=
  generateFirstInlineImageDataUri "key" (fun _ => .ok multiPartResponse)
    "img" "style" multiPartResponse multiPartCandidate
    [textPart] [jpegPart] pngPart
    { mimeType := some "image/png", data := some "AAA" }
    "image/png" "AAA"
    (by decide) rfl rfl (Or.inr (Or.inr rfl)) rfl (by decide)
    rfl rfl (by decide) rfl (by decide)


/-- Claim C4: given a successful upstream response, Analyze succeeds exactly
when the response carries truthy text the JSON parse accepts, returning the
parsed AssessmentResult; it fails with a ParseError-kind failure exactly when
the structured response is missing or malformed; and only one upstream call
is ever made, so such failures are never retried. -/
theorem analyzeParseExactness (apiKey : String)
    (gcA : Nat → AnalyzeRequest → Except UpstreamError AnalyzeResponse)
    (parseJson : String → Option AnalysisResult)
    (base64Image : String) (lang : Language) (resp : AnalyzeResponse)
    (hk : apiKey ≠ "")
    (hu : gcA 0 (analyzeRequestOf base64Image lang) = .ok resp) :
    (∀ r, (analyzeScalpImage apiKey gcA parseJson base64Image lang).1 =
        .ok r ↔ ∃ t, resp.text = some t ∧ t ≠ "" ∧ parseJson t = some r) ∧
    ((∃ er, (analyzeScalpImage apiKey gcA parseJson base64Image lang).1 =
        .error er ∧ parseErrorKind er = true) ↔
      missingOrMalformed parseJson resp) ∧
    (analyzeScalpImage apiKey gcA parseJson base64Image lang).2 = 1 := by
  have hbase : analyzeScalpImage apiKey gcA parseJson base64Image lang =
      (match resp.text with
       | none => (.error .noData, 1)
       | some t =>
         if t = "" then (.error .noData, 1)
         else
           match parseJson t with
           | none => (.error .parseFailure, 1)
           | some r => (.ok r, 1)) := by
    unfold analyzeScalpImage
    rw [if_neg hk, hu]
  rcases htext : resp.text with _ | t
  · have hval : analyzeScalpImage apiKey gcA parseJson base64Image lang =
        (.error .noData, 1) := by rw [hbase, htext]
    refine ⟨?_, ?_, by rw [hval]⟩
    · intro r
      rw [hval]
      simp [htext]
    · rw [hval]
      unfold missingOrMalformed
      rw [htext]
      simp [parseErrorKind]
  · by_cases ht0 : t = ""
    · have hval : analyzeScalpImage apiKey gcA parseJson base64Image lang =
          (.error .noData, 1) := by
        rw [hbase, htext]
        dsimp only
        rw [if_pos ht0]
      refine ⟨?_, ?_, by rw [hval]⟩
      · intro r
        rw [hval]
        simp [htext, ht0]
      · rw [hval]
        unfold missingOrMalformed
        rw [htext]
        simp [parseErrorKind, ht0]
    · rcases hparse : parseJson t with _ | r0
      · have hval : analyzeScalpImage apiKey gcA parseJson base64Image lang =
            (.error .parseFailure, 1) := by
          rw [hbase, htext]
          dsimp only
          rw [if_neg ht0, hparse]
        refine ⟨?_, ?_, by rw [hval]⟩
        · intro r
          rw [hval]
          simp [htext, hparse]
        · rw [hval]
          unfold missingOrMalformed
          rw [htext]
          simp [parseErrorKind, ht0, hparse]
      · have hval : analyzeScalpImage apiKey gcA parseJson base64Image lang =
            (.ok r0, 1) := by
          rw [hbase, htext]
          dsimp only
          rw [if_neg ht0, hparse]
        refine ⟨?_, ?_, by rw [hval]⟩
        · intro r
          rw [hval]
          simp [htext, hparse, ht0]
        · rw [hval]
          unfold missingOrMalformed
          rw [htext]
          simp [ht0, hparse]

/-- Claim C4, witness: a successful parse at a concrete response. -/
theorem analyzeParseExactness_witness :
    (analyzeScalpImage "key" (fun _ _ => .ok { text := some "body" })
      (fun _ => some badAssessment) "img" .en).2 = 1 :=
  (analyzeParseExactness "key" (fun _ _ => .ok { text := some "body" })
    (fun _ => some badAssessment) "img" .en { text := some "body" }
    (by decide) rfl).2.2

/-- Claim C8: in the final App revision, a failed generation never moves the
machine to the Error state: with an image present, failure from a generation
started in Results returns to Results and failure from a regeneration
started in PreviewReady returns to PreviewReady; over every handler
transition, the Error state is only ever entered from Analyzing. -/
theorem generationFailureAvoidsErrorState :
    (∀ s hasImage ok, AppState.error ∉ handleGeneratePreviewTrace s hasImage ok) ∧
    handleGeneratePreviewTrace .results true false =
      [.generatingPreview, .results] ∧
    handleGeneratePreviewTrace .previewReady true false =
      [.generatingPreview, .previewReady] ∧
    (∀ p : AppState × AppState, uiStep p → p.2 = .error → p.1 = .analyzing) :=
  ⟨by decide, rfl, rfl, by decide⟩

/-- stripBase64Prefix leaves a data-URI prefix declaring any other letter
run alone. -/
theorem strip_nonmatching (ext rest : List Char)
    (hae : ∀ c ∈ ext, isAsciiLetter c = true) (hmem : ext ∉ imageExts) :
    stripBase64Prefix (String.mk (dataUriPrefix ext ++ rest)) =
      String.mk (dataUriPrefix ext ++ rest) := by
  unfold stripBase64Prefix
  have hfind : imageExts.find?
      (fun e => (dataUriPrefix e).isPrefixOf
        (String.mk (dataUriPrefix ext ++ rest)).toList) = none := by
    rw [List.find?_eq_none]
    intro a ha
    have hla : ∀ c ∈ a, isAsciiLetter c = true := by
      fin_cases ha <;> decide
    rw [toList_mk]
    intro hpre
    refine hmem ?_
    rw [← (dataUriPrefix_isPrefixOf_iff a ext rest hla hae).mp hpre]
    exact ha
  rw [hfind]

/-- Claim C10: getMimeType returns the mime declared by a data-URI prefix of
the image letter-run shape and defaults to image/jpeg for every other string
(the empty string included, so every string is accepted), stripBase64Prefix
removes only the prefixes declaring png, jpeg, jpg or webp, and consequently
a Generate request built from a data URI declaring any other image mime
(such as image/gif) carries that declared mime type while its payload still
holds the full un-stripped data-URI prefix. -/
theorem mimeHelpersCharacterization :
    (∀ ext rest : List Char, ext ≠ [] → (∀ c ∈ ext, isAsciiLetter c = true) →
      getMimeType (String.mk (dataUriPrefix ext ++ rest)) =
        String.mk ("image/".toList ++ ext)) ∧
    (∀ s : String, getMimeType s = "image/jpeg" ∨
      ∃ ext rest, ext ≠ [] ∧ (∀ c ∈ ext, isAsciiLetter c = true) ∧
        s.toList = dataUriPrefix ext ++ rest ∧
        getMimeType s = String.mk ("image/".toList ++ ext)) ∧
    getMimeType "" = "image/jpeg" ∧
    (∀ ext ∈ imageExts, ∀ rest : List Char,
      stripBase64Prefix (String.mk (dataUriPrefix ext ++ rest)) =
        String.mk rest) ∧
    (∀ ext rest : List Char, (∀ c ∈ ext, isAsciiLetter c = true) →
      ext ∉ imageExts →
      stripBase64Prefix (String.mk (dataUriPrefix ext ++ rest)) =
        String.mk (dataUriPrefix ext ++ rest)) ∧
    (∀ stylePrompt : String,
      genRequestOf "data:image/gif;base64,AAAA" stylePrompt =
        { mimeType := "image/gif", data := "data:image/gif;base64,AAAA",
          stylePrompt := stylePrompt }) :=
  ⟨getMimeType_declared, getMimeType_total, by decide, strip_matching,
   strip_nonmatching, fun stylePrompt => by
     unfold genRequestOf
     rw [show getMimeType "data:image/gif;base64,AAAA" = "image/gif"
         from by decide,
       show stripBase64Prefix "data:image/gif;base64,AAAA" =
           "data:image/gif;base64,AAAA"
         from by decide]⟩

end HairV
